import Mathlib

/-!
Verification of the client-side SFTP transport/correlation engine of
`go-sftp` (`src/client.go`, package `sftp`).

The embedding is shallow. Go values become Lean values:

* `sshfxp.Message` variants (package `sshfxp`, outside `src/`) become the
  inductive `Message`; variants that implement `sshfxp.Header` (carry a
  correlation id) are the ones for which `msgId` returns `some`.
* `sshfxp.Packet` (a raw frame, pre-decode) becomes `Frame`; the external
  codec's `Decode`/`Encode` become `decode`/`encode`.
* Go `error` values produced by `client.go` become the inductive
  `ClientError`; each constructor records the data the corresponding Go
  error carries (`ClientError.render` reproduces the Go format strings).
* the `Router` (file `router.go`, outside `src/`) becomes the structure
  `Router`, modelled from the spec; a caller's response channel becomes an
  entry in `Router.pending` (still awaiting) or `Router.delivered`
  (delivery happened).
* the dispatcher goroutine of `NewClient` (client.go lines 75-99) becomes
  the step function `dispatchStep` on `ClientState`, iterated by
  `dispatchRun`; an iteration of its `select` consumes one `Event`.
* `send` (client.go lines 109-128) becomes `send`; a Go send on a closed
  channel is a runtime panic, rendered by the `SendResult.panicked`
  outcome.
-/

/-- Modelled from the spec: the decoded, typed payload of package `sshfxp`
(a repository package not under `src/`) — "a closed set of variants
(handshake-init, handshake-version, open-request, open-directory-request,
handle-response, status-response, read-directory-request, …)". The
handshake exchange has no correlation id; the other variants carry one.
`name` is the directory-entry-list response consumed by `ReadDir`. -/
inductive Message where
  | init (version : Nat)
  | version (version : Nat)
  | openDir (id : Nat) (path : String)
  | readDir (id : Nat) (handle : String)
  | handle (id : Nat) (handle : String)
  | status (id : Nat) (error : Nat) (message : String)
  | name (id : Nat) (entries : List String)
deriving DecidableEq, Repr

/-- Modelled from the spec: `sshfxp.Packet`, "an opaque length-prefixed
unit of the wire format"; the codec either recovers a typed message from
it or fails to decode. -/
inductive Frame where
  | good (m : Message)
  | bad (err : String)
deriving DecidableEq, Repr

/-- Modelled from the spec: the external codec's `Packet.Decode`,
`decode(frame) → (Message, error)`. -/
def decode : Frame → Except String Message
  | .good m => .ok m
  | .bad e => .error e

/-- Modelled from the spec: the external codec's `Packet.Encode`,
`encode(Message) → (frame, error)`; encoding a well-formed message
succeeds. -/
def encode (m : Message) : Except String Frame := .ok (.good m)

/-- The correlation id of a message, `some` exactly for the variants that
implement `sshfxp.Header` (modelled from the spec: "Some variants
additionally expose a mutable correlation-ID field ...; others do not
(e.g., the initial handshake exchange has no ID)"). -/
def msgId : Message → Option Nat
  | .init _ => none
  | .version _ => none
  | .openDir id _ => some id
  | .readDir id _ => some id
  | .handle id _ => some id
  | .status id _ _ => some id
  | .name id _ => some id

/-- Modelled from the spec: `sshfxp.Header.SetID`, stamping the router-assigned
correlation id into a correlatable message; a non-correlatable message is
unchanged. -/
def setId (m : Message) (newId : Nat) : Message :=
  match m with
  | .init v => .init v
  | .version v => .version v
  | .openDir _ p => .openDir newId p
  | .readDir _ h => .readDir newId h
  | .handle _ h => .handle newId h
  | .status _ e s => .status newId e s
  | .name _ es => .name newId es

/-- The Go `error` values produced by `client.go`, one constructor per
production site; each records the data the Go error string carries. -/
inductive ClientError where
  /-- a codec `Decode`/`Encode` failure returned as-is -/
  | codec (s : String)
  /-- `errors.New(...)` in `DoHandshake` -/
  | handshake (s : String)
  /-- `fmt.Errorf("%d - %s", msg.Error, msg.Message)` in `OpenDir` -/
  | operationErr (code : Nat) (message : String)
  /-- `fmt.Errorf("unexpected response: %#v", res)` in `OpenDir` -/
  | protocol (s : String)
  /-- `fmt.Errorf("failed to decode message: %s", err)` in `handleMessage` -/
  | decodeWrap (s : String)
  /-- a `Router.Resolve` failure (RoutingError) -/
  | routing (s : String)
deriving DecidableEq, Repr

/-- The Go format string behind each `ClientError` constructor. -/
def ClientError.render : ClientError → String
  | .codec s => s
  | .handshake s => s
  | .operationErr c m => toString c ++ " - " ++ m
  | .protocol s => "unexpected response: " ++ s
  | .decodeWrap s => "failed to decode message: " ++ s
  | .routing s => s

/-- What a pending request's response channel ends up receiving. -/
inductive Delivery where
  /-- a response message routed to the awaiting caller -/
  | msg (m : Message)
  /-- a shutdown error delivered when the session aborts the request -/
  | shutdownErr (e : String)
deriving DecidableEq, Repr

/-- Modelled from the spec: the Router (file `router.go`, a repository
file not under `src/`) — "mapping from id → PendingRequest, plus a
monotonically increasing id generator". `pending` holds the ids of
outstanding requests (each Go response channel still blocking its
caller); `delivered` records every delivery that has happened. -/
structure Router where
  nextId : Nat
  pending : List Nat
  delivered : List (Nat × Delivery)
deriving DecidableEq, Repr

/-- Modelled from the spec: `NewRouter()`. -/
def Router.new : Router := ⟨0, [], []⟩

/-- Modelled from the spec: `Router.Get` / `Reserve() → (id, responseSlot)`
"allocates a fresh unique id and an associated single-delivery response
slot; inserts into the table; never blocks". -/
def Router.get (r : Router) : Nat × Router :=
  (r.nextId, { r with nextId := r.nextId + 1, pending := r.pending ++ [r.nextId] })

/-- Modelled from the spec: `Router.Resolve(message) → error` — "extracts
the message's correlation id (if the variant is correlatable); looks it
up; if found, delivers the message into that entry's slot and removes the
entry; if not found (unknown or already-resolved id), returns a
RoutingError and makes no other change". -/
def Router.resolve (r : Router) (m : Message) : Except ClientError Router :=
  match msgId m with
  | none => .error (.routing "message carries no correlation id")
  | some id =>
    if id ∈ r.pending then
      .ok { r with
              pending := r.pending.erase id,
              delivered := r.delivered ++ [(id, .msg m)] }
    else
      .error (.routing "no outstanding request for id")

/-- The part of the client's state that `send` (client.go lines 109-128)
reads and writes: the router, whether `close(cli.outgoing)` has happened,
and the frames pushed onto the outbound queue. -/
structure SendState where
  router : Router
  outgoingClosed : Bool
  outgoing : List Frame
deriving DecidableEq, Repr

/-- The outcome of one call to `send`. In Go, `cli.outgoing <- pkt` on a
closed channel is a runtime panic, not an error return; `panicked`
renders that crash. -/
inductive SendResult where
  /-- returned `(res, nil)`: `slot` is the reserved correlation id whose
  channel the caller will await, `none` for a non-correlatable message -/
  | ok (st : SendState) (slot : Option Nat)
  /-- returned `(nil, err)` from the encode step -/
  | encodeError (e : String)
  /-- the goroutine panicked: "send on closed channel" -/
  | panicked (st : SendState)
deriving DecidableEq, Repr

/-- `Client.send` (client.go lines 109-128): if the message is
correlatable, reserve an id from the router and stamp it in; encode; push
the frame onto the outbound queue. The push on a closed queue panics. -/
def send (st : SendState) (x : Message) : SendResult :=
  let (st1, slot, x1) :=
    match msgId x with
    | some _ =>
      let (id, r') := st.router.get
      ({ st with router := r' }, some id, setId x id)
    | none => (st, none, x)
  match encode x1 with
  | .error e => .encodeError e
  | .ok pkt =>
    if st1.outgoingClosed then
      .panicked st1
    else
      .ok { st1 with outgoing := st1.outgoing ++ [pkt] } slot

/-- `Client.handleMessage` (client.go lines 130-142): decode the packet
(wrapping a decode failure) and hand the payload to `Router.Resolve`,
propagating its error. -/
def handleMessage (r : Router) (msg : Frame) : Except ClientError Router :=
  match decode msg with
  | .error e => .error (.decodeWrap e)
  | .ok payload => r.resolve payload

/-- The state of the dispatcher goroutine (client.go lines 75-99) plus
the fields of `Client` it touches: `ioErr`, the router, and whether
`close(cli.outgoing)` has run. `exited` is true once the loop has taken
`break L` and the goroutine has finished. -/
structure ClientState where
  router : Router
  ioErr : Option String
  outgoingClosed : Bool
  exited : Bool
deriving DecidableEq, Repr

/-- One thing the dispatcher's `select` can receive: a packet from
`cli.incoming`, or one pump's outcome from `cli.errch` (`some err` for a
fatal I/O error, `none` for a clean exit reported as a nil error). -/
inductive Event where
  | incoming (msg : Frame)
  | pumpOutcome (e : Option String)
deriving DecidableEq, Repr

/-- One iteration of the dispatcher loop (client.go lines 78-98). A
message from `cli.incoming` goes through `handleMessage`; its error is
only logged and the loop continues. The first receive on `cli.errch`
records a non-nil error into `cli.ioErr`, breaks the loop, and runs the
trailing `close(cli.outgoing)`. The `errch` branch calls nothing on the
router. -/
def dispatchStep (s : ClientState) (ev : Event) : ClientState :=
  match ev with
  | .incoming msg =>
    match handleMessage s.router msg with
    | .ok r' => { s with router := r' }
    | .error _ => s
  | .pumpOutcome e =>
    let s' := match e with
      | some err => { s with ioErr := some err }
      | none => s
    { s' with exited := true, outgoingClosed := true }

/-- The dispatcher goroutine run over a sequence of received events; once
the loop has exited, later events are no longer consumed by it. -/
def dispatchRun (s : ClientState) : List Event → ClientState
  | [] => s
  | ev :: rest =>
    if s.exited then s else dispatchRun (dispatchStep s ev) rest

/-- The fixed value `init.Version` sent by `DoHandshake`
(client.go lines 145-147): the client always requests version 3. -/
def initVersion : Nat := 3

/-- The send state a fresh `NewClient` gives `DoHandshake`: a new router
and an open, empty outbound queue. -/
def initialSendState : SendState :=
  { router := Router.new, outgoingClosed := false, outgoing := [] }

/-- `Client.DoHandshake` (client.go lines 144-171): send `Init{Version: 3}`,
block on the first inbound packet, decode it; a non-`Version` payload
yields `errors.New("unexpected message received")`, a version different
from the requested one yields `errors.New("unsupported version")`;
otherwise the received version is recorded as `cli.version` and returned
here together with the post-send state. -/
def DoHandshake (st : SendState) (firstInbound : Frame) :
    Except ClientError (Nat × SendState) :=
  match send st (.init initVersion) with
  | .encodeError e => .error (.codec e)
  | .panicked _ => .error (.codec "send on closed channel")
  | .ok st1 _ =>
    match decode firstInbound with
    | .error e => .error (.codec e)
    | .ok msg =>
      match msg with
      | .version v =>
        if v ≠ initVersion then .error (.handshake "unsupported version")
        else .ok (v, st1)
      | _ => .error (.handshake "unexpected message received")

/-- What `NewClient` (client.go lines 30-102) leaves behind, keyed on the
handshake result. On handshake failure the function closes the outbound
queue, closes both stream halves, waits for the pumps, stores the error
in the discarded `cli.ioErr` — and returns `nil`: the Go signature
`func NewClient(r, w) *Client` has no error result, so the caller
receives only the nil pointer. On success the caller receives a client in
the ready state with the dispatcher loop running. -/
inductive NewClientOutcome where
  /-- `return nil`: the constructed `cli` (holding the handshake error in
  `ioErr`) is discarded, the caller gets a nil pointer -/
  | failed (discardedIoErr : ClientError) (outgoingClosed : Bool)
  /-- `return cli`: the negotiated version and the dispatcher's state -/
  | ready (version : Nat) (st : ClientState)
deriving DecidableEq, Repr

/-- `NewClient` (client.go lines 30-102) as a function of the first
inbound frame (the only input the handshake consumes): run `DoHandshake`;
on error close the outbound queue and return nil, on success start the
dispatcher loop and return the client. -/
def NewClient (firstInbound : Frame) : NewClientOutcome :=
  match DoHandshake initialSendState firstInbound with
  | .error e => .failed e true
  | .ok (v, st1) =>
    .ready v
      { router := st1.router, ioErr := none,
        outgoingClosed := false, exited := false }

/-- The value the caller of `NewClient` actually receives: `some` the
negotiated version of a ready client, or `none` for the nil pointer. No
error value accompanies the nil pointer. -/
def returnedClient : NewClientOutcome → Option Nat
  | .failed _ _ => none
  | .ready v _ => some v

/-- `Client.Version` (client.go lines 173-175) on a ready client. -/
def Version (outcome : NewClientOutcome) : Option Nat :=
  returnedClient outcome

/-- The response interpretation of `Client.OpenDir`
(client.go lines 190-199): type-switch on the delivered message — a
`Handle` yields `(msg.Handle, nil)`, a `Status` yields
`fmt.Errorf("%d - %s", msg.Error, msg.Message)`, anything else yields
`fmt.Errorf("unexpected response: %#v", res)`. -/
def OpenDirInterpret (res : Message) : Except ClientError String :=
  match res with
  | .handle _ h => .ok h
  | .status _ e m => .error (.operationErr e m)
  | other => .error (.protocol (toString (repr other)))

/-- The response interpretation of `Client.ReadDir`
(client.go lines 212-215): the delivered message is logged and dropped,
and the function returns `(nil, nil)` — a nil entry list and a nil
error — whatever the response was. -/
def ReadDirInterpret (_res : Message) : Except ClientError (List String) :=
  .ok []

/-- Helper: once the dispatcher loop has exited, no further event is
consumed by it. -/
theorem dispatchRun_exited (evs : List Event) (s : ClientState)
    (h : s.exited = true) : dispatchRun s evs = s := by
  cases evs with
  | nil => rfl
  | cons ev rest => simp [dispatchRun, h]

/-- C5: sending `init(version=3)` and receiving `version(3)` completes the
handshake, `NewClient` returns a ready client whose recorded negotiated
version is the received 3, and `Version()` subsequently returns 3. -/
theorem handshake_success_reaches_ready_with_version_3 :
    NewClient (.good (.version 3)) =
      .ready 3 { router := Router.new, ioErr := none,
                 outgoingClosed := false, exited := false } ∧
    Version (NewClient (.good (.version 3))) = some 3 := by
  constructor <;> rfl

/-- Helper: `send` of the fixed `Init{Version: 3}` message on the fresh
client state: the message is not correlatable, so the router is untouched
and the encoded frame is pushed onto the open outbound queue. -/
theorem send_init_initial :
    send initialSendState (.init initVersion) =
      .ok { router := Router.new, outgoingClosed := false,
            outgoing := [.good (.init 3)] } none := rfl

/-- Helper: `DoHandshake` on the fresh client state, as a function of the
first inbound frame. -/
theorem DoHandshake_initial (f : Frame) :
    DoHandshake initialSendState f =
      match decode f with
      | .error e => .error (.codec e)
      | .ok (.version v) =>
        if v ≠ initVersion then .error (.handshake "unsupported version")
        else .ok (v, { router := Router.new, outgoingClosed := false,
                       outgoing := [.good (.init 3)] })
      | .ok _ => .error (.handshake "unexpected message received") := by
  cases f with
  | bad e => rfl
  | good m => cases m <;> rfl

/-- C10: whenever construction succeeds — `NewClient` returns a ready
client rather than nil — the negotiated version is exactly 3: the client
requests version 3 and `DoHandshake` rejects every other received
version, so no other value can be recorded. -/
theorem ready_client_version_is_exactly_3 (f : Frame) (v : Nat)
    (st : ClientState) (h : NewClient f = .ready v st) :
    v = 3 ∧ Version (NewClient f) = some 3 := by
  have hv : v = 3 := by
    unfold NewClient at h
    rw [DoHandshake_initial] at h
    cases f with
    | bad e => simp [decode] at h
    | good m =>
      cases m with
      | version w =>
        by_cases hw : w = initVersion
        · subst hw
          simp [decode, initVersion] at h
          obtain ⟨h1, -⟩ := h
          omega
        · simp [decode, hw] at h
      | init w => simp [decode] at h
      | openDir a b => simp [decode] at h
      | readDir a b => simp [decode] at h
      | handle a b => simp [decode] at h
      | status a b c => simp [decode] at h
      | name a b => simp [decode] at h
  subst hv
  exact ⟨rfl, by simp [Version, returnedClient, h]⟩

/-- Witness for C10 at the concrete successful handshake. -/
theorem ready_client_version_is_exactly_3_witness :
    (3 : Nat) = 3 ∧ Version (NewClient (.good (.version 3))) = some 3 :=
  ready_client_version_is_exactly_3 (.good (.version 3)) 3
    { router := Router.new, ioErr := none,
      outgoingClosed := false, exited := false } (by rfl)

/-- C6: if the first decoded inbound message is not the
handshake-version variant, or carries a version different from the
requested 3, `DoHandshake` yields the corresponding handshake error,
`NewClient` ends in the failed outcome (the session never becomes
Ready), and the caller receives the nil pointer — so no public operation
call can succeed afterward, there being no client to call it on. -/
theorem handshake_rejects_bad_first_message :
    (∀ v : Nat, v ≠ 3 →
      DoHandshake initialSendState (.good (.version v)) =
        .error (.handshake "unsupported version") ∧
      NewClient (.good (.version v)) =
        .failed (.handshake "unsupported version") true ∧
      returnedClient (NewClient (.good (.version v))) = none) ∧
    (∀ m : Message, (∀ v, m ≠ .version v) →
      DoHandshake initialSendState (.good m) =
        .error (.handshake "unexpected message received") ∧
      NewClient (.good m) =
        .failed (.handshake "unexpected message received") true ∧
      returnedClient (NewClient (.good m)) = none) := by
  constructor
  · intro v hv
    have h1 : DoHandshake initialSendState (.good (.version v)) =
        .error (.handshake "unsupported version") := by
      rw [DoHandshake_initial]
      simp [decode, hv, initVersion]
    refine ⟨h1, ?_, ?_⟩
    · unfold NewClient
      rw [h1]
    · unfold NewClient
      rw [h1]
      rfl
  · intro m hm
    have h1 : DoHandshake initialSendState (.good m) =
        .error (.handshake "unexpected message received") := by
      rw [DoHandshake_initial]
      cases m with
      | version w => exact absurd rfl (hm w)
      | init w => rfl
      | openDir a b => rfl
      | readDir a b => rfl
      | handle a b => rfl
      | status a b c => rfl
      | name a b => rfl
    refine ⟨h1, ?_, ?_⟩
    · unfold NewClient
      rw [h1]
    · unfold NewClient
      rw [h1]
      rfl

/-- Witness for C6 at `version(4)` and at a first message of the wrong
variant. -/
theorem handshake_rejects_bad_first_message_witness :
    NewClient (.good (.version 4)) =
      .failed (.handshake "unsupported version") true ∧
    NewClient (.good (.handle 1 "h")) =
      .failed (.handshake "unexpected message received") true :=
  ⟨(handshake_rejects_bad_first_message.1 4 (by decide)).2.1,
   (handshake_rejects_bad_first_message.2 (.handle 1 "h")
     (fun v => by simp)).2.1⟩

/-- C2, counterexample: `NewClient`'s Go signature is
`func NewClient(r io.ReadCloser, w io.WriteCloser) *Client` — there is no
error result. On the concrete input where the server answers the
`init(version=3)` with `version(4)`, the handshake fails with
"unsupported version", yet the caller receives a bare nil pointer
(`returnedClient ... = none`): the HandshakeError is stored in the
`ioErr` field of the discarded `cli` struct and never surfaced, refuting
the claim that construction "yields either a ready session or surfaces a
HandshakeError to the caller". -/
theorem newClient_swallows_handshake_error :
    DoHandshake initialSendState (.good (.version 4)) =
      .error (.handshake "unsupported version") ∧
    NewClient (.good (.version 4)) =
      .failed (.handshake "unsupported version") true ∧
    returnedClient (NewClient (.good (.version 4))) = none := by
  refine ⟨rfl, rfl, rfl⟩

/-- C2, amended: construction performs the handshake synchronously; on
handshake failure it closes the outbound queue, records the error only
in the `ioErr` field of the client object it then discards, and returns
nil — the caller observes that construction failed but receives no
HandshakeError value. -/
theorem newClient_failure_returns_nil (f : Frame) (e : ClientError)
    (h : DoHandshake initialSendState f = .error e) :
    NewClient f = .failed e true ∧
    returnedClient (NewClient f) = none := by
  unfold NewClient
  rw [h]
  exact ⟨rfl, rfl⟩

/-- Witness for the amended C2, at the `version(4)` reply. -/
theorem newClient_failure_returns_nil_witness :
    NewClient (.good (.version 4)) =
      .failed (.handshake "unsupported version") true ∧
    returnedClient (NewClient (.good (.version 4))) = none :=
  newClient_failure_returns_nil (.good (.version 4))
    (.handshake "unsupported version") (by rfl)

/-- C1, counterexample: run the code's own path — a ready client sends
one `OpenDir` request, reserving id 0 (so the router holds one pending
request), then a pump reports the fatal outcome `"write error"`. The
dispatcher's `errch` branch (client.go lines 87-94) records the error,
breaks the loop, and the goroutine closes the outbound queue — but it
never calls any abort on the router: the request is still pending and
nothing (in particular no ShutdownError) was delivered to its response
channel, so its await blocks forever, refuting the claim. -/
theorem dispatcher_never_aborts_pending_requests :
    send { router := Router.new, outgoingClosed := false, outgoing := [] }
        (.openDir 0 "/tmp") =
      .ok { router := { nextId := 1, pending := [0], delivered := [] },
            outgoingClosed := false,
            outgoing := [.good (.openDir 0 "/tmp")] } (some 0) ∧
    dispatchStep
        { router := { nextId := 1, pending := [0], delivered := [] },
          ioErr := none, outgoingClosed := false, exited := false }
        (.pumpOutcome (some "write error")) =
      { router := { nextId := 1, pending := [0], delivered := [] },
        ioErr := some "write error", outgoingClosed := true,
        exited := true } := by
  refine ⟨rfl, rfl⟩

/-- C1, amended: when a pump reports a fatal outcome, the dispatcher
records it as the session error, exits its loop, and closes the outbound
queue (which stops the Writer Pump) — but it does not call
`Router.Abort`: the router, and with it every currently-pending
request's undelivered response channel, is left exactly as it was. -/
theorem fatal_outcome_closes_queue_but_leaves_router
    (s : ClientState) (err : String) :
    dispatchStep s (.pumpOutcome (some err)) =
      { s with ioErr := some err, outgoingClosed := true,
               exited := true } := rfl

/-- C9: the dispatcher records the first pump outcome it receives and
exits its loop, closing the outbound queue; whatever events follow —
including a second pump's outcome — are never consumed by the loop, so
the recorded session error is never overwritten. -/
theorem first_pump_outcome_recorded_once (s : ClientState) (err : String)
    (rest : List Event) (h : s.exited = false) :
    dispatchRun s (.pumpOutcome (some err) :: rest) =
      { s with ioErr := some err, outgoingClosed := true,
               exited := true } := by
  rw [dispatchRun, if_neg (by simp [h])]
  exact dispatchRun_exited rest _ rfl

/-- Witness for C9: a fatal read error followed by a second, late
outcome; the session error stays the first one. -/
theorem first_pump_outcome_recorded_once_witness :
    dispatchRun
        { router := Router.new, ioErr := none,
          outgoingClosed := false, exited := false }
        [.pumpOutcome (some "read error"), .pumpOutcome (some "late error")] =
      { router := Router.new, ioErr := some "read error",
        outgoingClosed := true, exited := true } :=
  first_pump_outcome_recorded_once
    { router := Router.new, ioErr := none,
      outgoingClosed := false, exited := false }
    "read error" [.pumpOutcome (some "late error")] rfl

/-- C7: an inbound message whose correlation id matches no outstanding
request makes `Router.Resolve` (and hence `handleMessage`) return a
RoutingError; the dispatcher loop only logs that error and leaves its
state untouched. Moreover — second conjunct — no incoming message
whatsoever can exit the loop, close the outbound queue, or set the
session error: a routing failure alone never terminates the session. -/
theorem routing_error_is_nonfatal :
    (∀ (s : ClientState) (m : Message) (id : Nat),
      msgId m = some id → id ∉ s.router.pending →
      handleMessage s.router (.good m) =
        .error (.routing "no outstanding request for id") ∧
      dispatchStep s (.incoming (.good m)) = s) ∧
    (∀ (s : ClientState) (msg : Frame),
      (dispatchStep s (.incoming msg)).exited = s.exited ∧
      (dispatchStep s (.incoming msg)).outgoingClosed = s.outgoingClosed ∧
      (dispatchStep s (.incoming msg)).ioErr = s.ioErr) := by
  constructor
  · intro s m id hid hout
    have h1 : handleMessage s.router (.good m) =
        .error (.routing "no outstanding request for id") := by
      rw [handleMessage]
      simp only [decode]
      rw [Router.resolve, hid]
      simp [hout]
    refine ⟨h1, ?_⟩
    rw [dispatchStep]
    rw [h1]
  · intro s msg
    rw [dispatchStep]
    cases handleMessage s.router msg <;> simp

/-- Witness for C7: a `Handle` response with id 7 arrives while no
request is outstanding; it is discarded and the dispatcher state is
unchanged. -/
theorem routing_error_is_nonfatal_witness :
    handleMessage Router.new (.good (.handle 7 "h")) =
      .error (.routing "no outstanding request for id") ∧
    dispatchStep
        { router := Router.new, ioErr := none,
          outgoingClosed := false, exited := false }
        (.incoming (.good (.handle 7 "h"))) =
      { router := Router.new, ioErr := none,
        outgoingClosed := false, exited := false } :=
  routing_error_is_nonfatal.1
    { router := Router.new, ioErr := none,
      outgoingClosed := false, exited := false }
    (.handle 7 "h") 7 rfl (by simp [Router.new])

/-- C4: the uniform interpretation of a response delivered to an
`OpenDir` call's slot — a `Handle` variant yields that handle with nil
error; a `Status` variant yields the operation error carrying the
server's numeric code and message text (Go:
`fmt.Errorf("%d - %s", msg.Error, msg.Message)`); any other variant
yields the protocol error whose text starts "unexpected response". -/
theorem openDir_uniform_response_interpretation :
    (∀ (id : Nat) (h : String),
      OpenDirInterpret (.handle id h) = .ok h) ∧
    (∀ (id e : Nat) (m : String),
      OpenDirInterpret (.status id e m) = .error (.operationErr e m) ∧
      (ClientError.operationErr e m).render = toString e ++ " - " ++ m) ∧
    (∀ res : Message,
      (∀ id h, res ≠ .handle id h) → (∀ id e m, res ≠ .status id e m) →
      ∃ s, OpenDirInterpret res = .error (.protocol s)) := by
  refine ⟨fun id h => rfl, fun id e m => ⟨rfl, rfl⟩, ?_⟩
  intro res hh hs
  cases res with
  | handle id h => exact absurd rfl (hh id h)
  | status id e m => exact absurd rfl (hs id e m)
  | init v => exact ⟨_, rfl⟩
  | version v => exact ⟨_, rfl⟩
  | openDir a b => exact ⟨_, rfl⟩
  | readDir a b => exact ⟨_, rfl⟩
  | name a b => exact ⟨_, rfl⟩

/-- Witness for C4 at the spec's concrete examples: `handle("abc")`
yields `("abc", nil)`, `status(2, "no such file")` yields the operation
error with fields 2 and "no such file", and a stray `version` message is
an "unexpected response". -/
theorem openDir_uniform_response_interpretation_witness :
    OpenDirInterpret (.handle 1 "abc") = .ok "abc" ∧
    OpenDirInterpret (.status 1 2 "no such file") =
      .error (.operationErr 2 "no such file") ∧
    ∃ s, OpenDirInterpret (.version 3) = .error (.protocol s) :=
  ⟨openDir_uniform_response_interpretation.1 1 "abc",
   (openDir_uniform_response_interpretation.2.1 1 2 "no such file").1,
   openDir_uniform_response_interpretation.2.2 (.version 3)
     (fun id h => by simp) (fun id e m => by simp)⟩

/-- C3: the code of `ReadDir` (client.go lines 212-215) receives the
response, logs it, and returns `(nil, nil)`: even when the delivered
message is a decoded entry list, the entries are discarded and the
result is the empty list — contradicting the claim (which the spec's
own design notes state as the intent, calling the reference behavior
"evidently incomplete"). -/
theorem readDir_discards_decoded_entries :
    ReadDirInterpret (.name 0 ["file1", "file2"]) = .ok [] ∧
    (∀ res : Message, ReadDirInterpret res = .ok []) :=
  ⟨rfl, fun _ => rfl⟩

/-- C8: after the dispatcher has closed the outbound queue, `send` does
not fail fast with an error — the unconditional `cli.outgoing <- pkt`
(client.go line 125) is a Go send on a closed channel, a runtime panic.
At the concrete failing input (an `OpenDir` request issued after
shutdown) the outcome is `panicked`, not an error return; the claim
describes the intended fail-fast behavior the code does not have. -/
theorem send_after_close_panics :
    send { router := { nextId := 1, pending := [0], delivered := [] },
           outgoingClosed := true, outgoing := [] }
        (.openDir 0 "/tmp") =
      .panicked { router := { nextId := 2, pending := [0, 1],
                              delivered := [] },
                  outgoingClosed := true, outgoing := [] } ∧
    (∀ (st : SendState) (x : Message) (slot : Option Nat)
       (st2 : SendState), st.outgoingClosed = true →
       send st x ≠ .ok st2 slot) := by
  constructor
  · rfl
  · intro st x slot st2 hclosed
    rw [send]
    cases hx : msgId x with
    | none =>
      simp only [hx]
      rw [encode]
      simp [hclosed]
    | some id =>
      simp only [hx]
      rw [encode]
      simp [hclosed]

/-- Witness for C8's universally quantified part: a non-correlatable
message sent on the closed queue also never returns success. -/
theorem send_after_close_panics_witness :
    send { router := Router.new, outgoingClosed := true, outgoing := [] }
        (.init 3) ≠
      .ok { router := Router.new, outgoingClosed := true,
            outgoing := [.good (.init 3)] } none :=
  send_after_close_panics.2
    { router := Router.new, outgoingClosed := true, outgoing := [] }
    (.init 3) none
    { router := Router.new, outgoingClosed := true,
      outgoing := [.good (.init 3)] } rfl
